import Mathlib

/-!
Verification of the RoboSanta OS-abstraction shim: error translation,
registry access, platform type normalization, and SunOS compatibility
definitions. Headers under src/ give declarations, preprocessor guards and
compatibility definitions; where only a declaration exists in the sources,
the behaviour is modelled from the specification and the doc comment of the
definition says so.
-/

namespace RoboSanta

/-! ## Canonical error codes

Modelled from the spec: the canonical error enumeration is "a small,
platform-independent integer enumeration" with "a defined unknown fallback";
its members are not given in the sources, so representative members are
chosen here.  `MOS_ERR_OK` is the defined success marker. -/

def MOS_ERR_OK : Int := 0

def MOS_ERR_UNKNOWN : Int := 1

def MOS_ERR_NOENT : Int := 2

def MOS_ERR_PERM : Int := 3

def MOS_ERR_NOMEM : Int := 4

def MOS_ERR_INVALID : Int := 5

def MOS_ERR_TIMEDOUT : Int := 6

def MOS_ERR_CONNREFUSED : Int := 7

def MOS_ERR_ADDRINUSE : Int := 8

/-! ## Error translators (mos_os-Windows-user.h)

The header declares `mos_windows_error_to_err(DWORD)` and
`mos_windows_wsa_error_to_err(int)`; their mapping tables are not in the
sources. -/

/-- Modelled from the spec: the native-to-canonical mapping table for the
generic OS error space (the table contents are missing from src; these are
representative Windows OS error codes).  Keys are DWORD values (Nat). -/
def osErrorTable : List (Nat × Int) :=
  [(2, MOS_ERR_NOENT), (5, MOS_ERR_PERM), (8, MOS_ERR_NOMEM), (87, MOS_ERR_INVALID)]

/-- Modelled from the spec: the native-to-canonical mapping table for the
network-subsystem (WSA) error space, a numbering distinct from the generic
OS error space.  Keys are int values (Int). -/
def wsaErrorTable : List (Int × Int) :=
  [(10013, MOS_ERR_PERM), (10048, MOS_ERR_ADDRINUSE), (10060, MOS_ERR_TIMEDOUT),
   (10061, MOS_ERR_CONNREFUSED)]

/-- Modelled from the spec: `mos_windows_error_to_err` (declared in
mos_os-Windows-user.h, body missing from src) maps a generic OS error code
through the table, with the canonical unknown code as total fallback. -/
def mos_windows_error_to_err (e : Nat) : Int :=
  (osErrorTable.lookup e).getD MOS_ERR_UNKNOWN

/-- Modelled from the spec: `mos_windows_wsa_error_to_err` (declared in
mos_os-Windows-user.h, body missing from src) maps a network-subsystem
error code through its own table, with the unknown code as fallback. -/
def mos_windows_wsa_error_to_err (e : Int) : Int :=
  (wsaErrorTable.lookup e).getD MOS_ERR_UNKNOWN

/-! ## Operation context (mosiop_t) -/

/-- A native error code, tagged by which numbering space it came from. -/
inductive NativeCode
  | os (e : Nat)
  | wsa (e : Int)
  deriving DecidableEq

/-- Modelled from the spec: the opaque OperationContext (`mosiop_t`): a
caller-owned handle that accumulates failure provenance (native codes)
across a call chain.  Its concrete layout is missing from src. -/
structure mosiop where
  recorded : List NativeCode
  deriving DecidableEq

/-- Modelled from the spec: `mos_windows_error` (declared in
mos_os-Windows-user.h, body missing from src) records the native code into
the context and returns the canonical translation. -/
def mos_windows_error (iop : mosiop) (e : Nat) : mosiop × Int :=
  (⟨NativeCode.os e :: iop.recorded⟩, mos_windows_error_to_err e)

/-- Modelled from the spec: `mos_windows_wsa_error` (declared in
mos_os-Windows-user.h, body missing from src) records the native WSA code
into the context and returns the canonical translation. -/
def mos_windows_wsa_error (iop : mosiop) (e : Int) : mosiop × Int :=
  (⟨NativeCode.wsa e :: iop.recorded⟩, mos_windows_wsa_error_to_err e)

/-! ## Message rendering (mos_windows_strerror) -/

/-- Modelled from the spec: the human-readable description of a native code
(the OS-supplied rendering; the actual text source, FormatMessage, is
outside src).  Represented as the decimal digits of the code prefixed by a
fixed label, as a byte-per-entry character list. -/
def strerrorText (e : Nat) : List Char :=
  ("OS error " ++ toString e).toList

/-- Modelled from the spec: `mos_windows_strerror` (declared in
mos_os-Windows-user.h, body missing from src) renders a description of a
native code into a caller-owned buffer of `msgbufsz` bytes, never writing
past it, and reports the true (untruncated) rendered length so truncation
is detectable.  The result is (bytes written to the buffer, reported
length). -/
def mos_windows_strerror (e : Nat) (msgbufsz : Nat) : List Char × Nat :=
  ((strerrorText e).take msgbufsz, (strerrorText e).length)

/-! ## Registry accessor (mos_registry-Windows.h) -/

/-- Outcome of looking a value name up beneath a machine-scoped key:
either the value is present (with its string contents), the key is
accessible but the value is absent, or the key cannot be accessed, in
which case a native OS error code describes why. -/
inductive RegResult
  | found (contents : String)
  | absent
  | accessError (native : Nat)
  deriving DecidableEq

/-- The machine registry, as a map from (key path, value name) to the
lookup outcome. -/
def Registry : Type := String → String → RegResult

/-- Modelled from the spec: parsing a registry value's contents as a 32-bit
unsigned integer (decimal, must fit in 32 bits). -/
def parseU32 (s : String) : Option Nat :=
  if s.length ≠ 0 ∧ s.toList.all Char.isDigit then
    let n := s.toList.foldl (fun acc c => acc * 10 + (c.toNat - 48)) 0
    if n < 2 ^ 32 then some n else none
  else none

/-- The observable outcome of `mos_registry_getu32`: the context after the
call, the returned integer status, and the value stored through the
`uint32_t *` output parameter (`none` when the output is left untouched). -/
structure GetU32Result where
  iop : mosiop
  status : Int
  out : Option Nat
  deriving DecidableEq

/-- Modelled from the spec: `mos_registry_getu32` (declared in
mos_registry-Windows.h, body missing from src).  Absent value: stores the
given default and succeeds.  Present but unparseable value: error, default
not substituted.  Inaccessible key: the native error is translated through
`mos_windows_error` (recording it in the context) and returned; default
not substituted. -/
def mos_registry_getu32 (iop : mosiop) (reg : Registry) (key value : String)
    (defaultValue : Nat) : GetU32Result :=
  match reg key value with
  | RegResult.absent => ⟨iop, MOS_ERR_OK, some defaultValue⟩
  | RegResult.found s =>
    match parseU32 s with
    | some n => ⟨iop, MOS_ERR_OK, some n⟩
    | none => ⟨iop, MOS_ERR_INVALID, none⟩
  | RegResult.accessError e =>
    let r := mos_windows_error iop e
    ⟨r.1, r.2, none⟩

/-- The function names declared by mos_registry-Windows.h, as a function of
whether the build defines _KERNEL: `mos_registry_setmachinevalue` is
declared inside `#ifndef _KERNEL`, the two getters unconditionally.
(Embedded from the preprocessor structure of the source header.) -/
def registryDeclaredSymbols (kernelBuild : Bool) : List String :=
  ["mos_registry_getmachinevalue", "mos_registry_getu32"] ++
    (if kernelBuild then [] else ["mos_registry_setmachinevalue"])

/-! ## Platform type normalizer (mos_basic_types-win.h) -/

def INT64_MAX : Int := 2 ^ 63 - 1

def INT32_MAX : Int := 2 ^ 31 - 1

/-- The width in bits of `ssize_t` as typedef'd by mos_basic_types-win.h:
int64_t under _WIN64, int32_t otherwise. -/
def ssize_bits (win64 : Bool) : Nat :=
  if win64 then 64 else 32

/-- `SSIZE_MAX` as defined by mos_basic_types-win.h: INT64_MAX under
_WIN64, INT32_MAX otherwise. -/
def SSIZE_MAX (win64 : Bool) : Int :=
  if win64 then INT64_MAX else INT32_MAX

/-- The preprocessor guard under which mos_basic_types-win.h introduces a
symbol: none at all, a check that some symbol is not already defined
(a presence check), or a platform flag check. -/
inductive Guard
  | unconditional
  | ifNotDefined (sym : String)
  | ifPlatform (flag : String)
  deriving DecidableEq

/-- Whether a guard is a presence check: it tests that a symbol is not
already defined, so an already-supplied symbol is not redefined. -/
def isPresenceGuarded : Guard → Bool
  | Guard.ifNotDefined _ => true
  | _ => false

/-- Every symbol mos_basic_types-win.h defines, with the guard it sits
under, embedded from the preprocessor structure of the source: the
fixed-width aliases are inside `#ifdef WIN_WDK`; `NULL` is defined with no
guard at all; `ssize_t` and `SSIZE_MAX` are inside `#if !defined(ssize_t)`;
`NAN` is inside `#ifndef NAN`. -/
def basicTypesDefs : List (String × Guard) :=
  [("uint64_t", Guard.ifPlatform "WIN_WDK"), ("uint32_t", Guard.ifPlatform "WIN_WDK"),
   ("uint16_t", Guard.ifPlatform "WIN_WDK"), ("uint8_t", Guard.ifPlatform "WIN_WDK"),
   ("int64_t", Guard.ifPlatform "WIN_WDK"), ("int32_t", Guard.ifPlatform "WIN_WDK"),
   ("int16_t", Guard.ifPlatform "WIN_WDK"), ("int8_t", Guard.ifPlatform "WIN_WDK"),
   ("uintmax_t", Guard.ifPlatform "WIN_WDK"), ("intmax_t", Guard.ifPlatform "WIN_WDK"),
   ("u_char", Guard.ifPlatform "WIN_WDK"), ("u_short", Guard.ifPlatform "WIN_WDK"),
   ("u_int", Guard.ifPlatform "WIN_WDK"), ("u_long", Guard.ifPlatform "WIN_WDK"),
   ("NULL", Guard.unconditional),
   ("ssize_t", Guard.ifNotDefined "ssize_t"), ("SSIZE_MAX", Guard.ifNotDefined "ssize_t"),
   ("NAN", Guard.ifNotDefined "NAN")]

/-! ## Exported function return types -/

/-- The return type of an exported declaration: an integer status, or a
pointer to constant characters. -/
inductive RetType
  | intStatus
  | constCharPtr
  deriving DecidableEq

/-- The exported functions of the error-translation and registry subsystem
with their declared return types, embedded from the declarations in
mos_os-Windows-user.h and mos_registry-Windows.h. -/
def exportedFunctions : List (String × RetType) :=
  [("mos_windows_error_to_err", RetType.intStatus),
   ("mos_windows_error", RetType.intStatus),
   ("mos_windows_wsa_error_to_err", RetType.intStatus),
   ("mos_windows_wsa_error", RetType.intStatus),
   ("mos_windows_strerror", RetType.constCharPtr),
   ("mos_registry_getmachinevalue", RetType.intStatus),
   ("mos_registry_getu32", RetType.intStatus),
   ("mos_registry_setmachinevalue", RetType.intStatus)]

/-! ## SunOS compatibility definitions (mos_os-SunOS-user.h) -/

/-- Byte-addressed memory, as a map from addresses to byte values. -/
def Mem : Type := Nat → Nat

/-- The semantics of the C library memcpy(dst, src, len): each address in
[dst, dst+len) takes the byte at the corresponding offset from src; all
other addresses are unchanged.  (Reads are from the pre-call memory; the
regions are assumed not to overlap, as C requires.) -/
def memcpy (dst src len : Nat) (m : Mem) : Mem :=
  fun a => if dst ≤ a ∧ a < dst + len then m (src + (a - dst)) else m a

/-- The semantics of the C library memset(dst, c, len): each address in
[dst, dst+len) takes the byte c; all other addresses are unchanged. -/
def memset (dst c len : Nat) (m : Mem) : Mem :=
  fun a => if dst ≤ a ∧ a < dst + len then c else m a

/-- `bcopy(src, dst, len)` as defined by mos_os-SunOS-user.h: expands to
memcpy((dst), (src), (len)). -/
def bcopy (src dst len : Nat) (m : Mem) : Mem :=
  memcpy dst src len m

/-- `bzero(addr, len)` as defined by mos_os-SunOS-user.h: expands to
memset((addr), 0, (len)). -/
def bzero (addr len : Nat) (m : Mem) : Mem :=
  memset addr 0 len m

/-! ## Helper lemmas -/

/-- Any canonical code produced by a successful OS-table lookup is one of
the table's canonical members. -/
theorem osErrorTable_lookup_values (e : Nat) (c : Int)
    (h : osErrorTable.lookup e = some c) :
    c = MOS_ERR_NOENT ∨ c = MOS_ERR_PERM ∨ c = MOS_ERR_NOMEM ∨ c = MOS_ERR_INVALID := by
  simp only [osErrorTable, List.lookup] at h
  repeat' split at h
  all_goals simp_all

/-- OS-error translation never produces the success marker: every table
entry and the unknown fallback are nonzero canonical codes. -/
theorem mos_windows_error_to_err_ne_ok (e : Nat) :
    mos_windows_error_to_err e ≠ MOS_ERR_OK := by
  unfold mos_windows_error_to_err
  rcases h : osErrorTable.lookup e with _ | c
  · decide
  · rcases osErrorTable_lookup_values e c h with h1 | h1 | h1 | h1 <;> simp [h1] <;> decide

/-! ## Claims -/

/-- C1: if the named registry value is absent, `mos_registry_getu32` stores
the default value in the output parameter and returns the success status;
if the value is present but cannot be parsed as a 32-bit unsigned integer,
or the key cannot be accessed, it returns an error status and never
substitutes the default (the output parameter is left untouched). -/
theorem C1_getu32_default_policy (iop : mosiop) (reg : Registry)
    (key value : String) (d : Nat) :
    (reg key value = RegResult.absent →
      mos_registry_getu32 iop reg key value d = ⟨iop, MOS_ERR_OK, some d⟩) ∧
    (∀ s, reg key value = RegResult.found s → parseU32 s = none →
      (mos_registry_getu32 iop reg key value d).status ≠ MOS_ERR_OK ∧
      (mos_registry_getu32 iop reg key value d).out = none) ∧
    (∀ e, reg key value = RegResult.accessError e →
      (mos_registry_getu32 iop reg key value d).status ≠ MOS_ERR_OK ∧
      (mos_registry_getu32 iop reg key value d).out = none) := by
  refine ⟨?_, ?_, ?_⟩
  · intro h
    simp [mos_registry_getu32, h]
  · intro s hf hp
    refine ⟨?_, ?_⟩
    · simp [mos_registry_getu32, hf, hp]
      decide
    · simp [mos_registry_getu32, hf, hp]
  · intro e he
    refine ⟨?_, ?_⟩ <;> simp [mos_registry_getu32, he, mos_windows_error]
    exact mos_windows_error_to_err_ne_ok e

/-- Witness for C1 at concrete registries: an absent `Timeout` value with
default 30 succeeds with 30; a present non-numeric value is an error and
the default is not substituted; an inaccessible key is an error. -/
theorem C1_getu32_default_policy_witness :
    ((fun _ _ => RegResult.absent : Registry) "Software\\RoboSanta" "Timeout"
        = RegResult.absent ∧
      mos_registry_getu32 ⟨[]⟩ (fun _ _ => RegResult.absent)
        "Software\\RoboSanta" "Timeout" 30 = ⟨⟨[]⟩, MOS_ERR_OK, some 30⟩) ∧
    ((fun _ _ => RegResult.found "abc" : Registry) "Software\\RoboSanta" "Timeout"
        = RegResult.found "abc" ∧ parseU32 "abc" = none ∧
      (mos_registry_getu32 ⟨[]⟩ (fun _ _ => RegResult.found "abc")
        "Software\\RoboSanta" "Timeout" 30).status ≠ MOS_ERR_OK ∧
      (mos_registry_getu32 ⟨[]⟩ (fun _ _ => RegResult.found "abc")
        "Software\\RoboSanta" "Timeout" 30).out = none) ∧
    ((fun _ _ => RegResult.accessError 5 : Registry) "Software\\RoboSanta" "Timeout"
        = RegResult.accessError 5 ∧
      (mos_registry_getu32 ⟨[]⟩ (fun _ _ => RegResult.accessError 5)
        "Software\\RoboSanta" "Timeout" 30).status ≠ MOS_ERR_OK ∧
      (mos_registry_getu32 ⟨[]⟩ (fun _ _ => RegResult.accessError 5)
        "Software\\RoboSanta" "Timeout" 30).out = none) :=
  ⟨⟨rfl, (C1_getu32_default_policy ⟨[]⟩ (fun _ _ => RegResult.absent)
      "Software\\RoboSanta" "Timeout" 30).1 rfl⟩,
   ⟨rfl, by decide,
    (C1_getu32_default_policy ⟨[]⟩ (fun _ _ => RegResult.found "abc")
      "Software\\RoboSanta" "Timeout" 30).2.1 "abc" rfl (by decide)⟩,
   ⟨rfl,
    (C1_getu32_default_policy ⟨[]⟩ (fun _ _ => RegResult.accessError 5)
      "Software\\RoboSanta" "Timeout" 30).2.2 5 rfl⟩⟩

/-- C2: OS-error translation is total: every native code present in the
mapping table translates to exactly its documented canonical code; any
native code absent from the table translates to the canonical unknown
fallback; and for every input the result is either a table value or the
unknown code — translation never fails (the function is total by
construction). -/
theorem C2_translate_os_error_total :
    (∀ p ∈ osErrorTable, mos_windows_error_to_err p.1 = p.2) ∧
    (∀ e : Nat, osErrorTable.lookup e = none →
      mos_windows_error_to_err e = MOS_ERR_UNKNOWN) ∧
    (∀ e : Nat, mos_windows_error_to_err e = MOS_ERR_UNKNOWN ∨
      mos_windows_error_to_err e ∈ osErrorTable.map Prod.snd) := by
  refine ⟨by decide, ?_, ?_⟩
  · intro e h
    simp [mos_windows_error_to_err, h]
  · intro e
    rcases h : osErrorTable.lookup e with _ | c
    · exact Or.inl (by simp [mos_windows_error_to_err, h])
    · refine Or.inr ?_
      have hv := osErrorTable_lookup_values e c h
      have : mos_windows_error_to_err e = c := by simp [mos_windows_error_to_err, h]
      rw [this]
      rcases hv with h1 | h1 | h1 | h1 <;> simp [h1, osErrorTable]

/-- Witness for C2: native code 2 is in the table and translates to its
documented code; native code 99 is absent and translates to the unknown
fallback. -/
theorem C2_translate_os_error_total_witness :
    ((2, MOS_ERR_NOENT) ∈ osErrorTable ∧ mos_windows_error_to_err 2 = MOS_ERR_NOENT) ∧
    (osErrorTable.lookup 99 = none ∧ mos_windows_error_to_err 99 = MOS_ERR_UNKNOWN) :=
  ⟨⟨by decide, C2_translate_os_error_total.1 (2, MOS_ERR_NOENT) (by decide)⟩,
   ⟨by decide, C2_translate_os_error_total.2.1 99 (by decide)⟩⟩

/-- C3: the message formatter writes at most `msgbufsz` bytes into the
buffer, reports the true rendered length, and the rendered message exceeds
the buffer exactly when the written content was truncated — so a caller
can detect truncation from the reported length. -/
theorem C3_strerror_bounded (e msgbufsz : Nat) :
    (mos_windows_strerror e msgbufsz).1.length ≤ msgbufsz ∧
    (mos_windows_strerror e msgbufsz).2 = (strerrorText e).length ∧
    (msgbufsz < (mos_windows_strerror e msgbufsz).2 ↔
      (mos_windows_strerror e msgbufsz).1.length < (strerrorText e).length) := by
  refine ⟨?_, rfl, ?_⟩
  · simp [mos_windows_strerror]
  · simp [mos_windows_strerror]

/-- C4: `mos_registry_setmachinevalue` is declared by the registry header
exactly when _KERNEL is not defined — its absence from kernel builds is a
property of the declared interface, not a runtime check. -/
theorem C4_setmachinevalue_compiled_out :
    "mos_registry_setmachinevalue" ∈ registryDeclaredSymbols false ∧
    "mos_registry_setmachinevalue" ∉ registryDeclaredSymbols true := by
  decide

/-- C5: the pointer-width signed size type's maximum matches the target
width: under _WIN64 `ssize_t` is 64 bits wide and SSIZE_MAX = INT64_MAX =
2^63 - 1; otherwise it is 32 bits wide and SSIZE_MAX = INT32_MAX =
2^31 - 1; in both cases SSIZE_MAX is the largest signed value of the
chosen width. -/
theorem C5_ssize_max_matches_width :
    (∀ b : Bool, SSIZE_MAX b = 2 ^ (ssize_bits b - 1) - 1) ∧
    SSIZE_MAX true = INT64_MAX ∧ SSIZE_MAX false = INT32_MAX ∧
    INT64_MAX = 2 ^ 63 - 1 ∧ INT32_MAX = 2 ^ 31 - 1 ∧
    ssize_bits true = 64 ∧ ssize_bits false = 32 := by
  refine ⟨?_, rfl, rfl, rfl, rfl, rfl, rfl⟩
  intro b
  cases b <;> decide

/-- C6 counterexample: `NULL` is defined by mos_basic_types-win.h with no
guard at all, so it is not protected by a presence check — the claim that
every symbol the header defines is presence-guarded fails at NULL. -/
theorem C6_counterexample_null_unguarded :
    ("NULL", Guard.unconditional) ∈ basicTypesDefs ∧
    basicTypesDefs.lookup "NULL" = some Guard.unconditional ∧
    isPresenceGuarded Guard.unconditional = false := by
  decide

/-- C6 amended: `ssize_t`, `SSIZE_MAX` and `NAN` are guarded by presence
checks; the fixed-width integer aliases are guarded by the platform check
WIN_WDK rather than a presence check; and `NULL` is defined
unconditionally, so a platform-supplied NULL is redefined. -/
theorem C6_amended_guards :
    basicTypesDefs.lookup "ssize_t" = some (Guard.ifNotDefined "ssize_t") ∧
    basicTypesDefs.lookup "SSIZE_MAX" = some (Guard.ifNotDefined "ssize_t") ∧
    basicTypesDefs.lookup "NAN" = some (Guard.ifNotDefined "NAN") ∧
    basicTypesDefs.lookup "NULL" = some Guard.unconditional ∧
    (basicTypesDefs.all fun p =>
      isPresenceGuarded p.2 || p.1 == "NULL" ||
        decide (p.2 = Guard.ifPlatform "WIN_WDK")) = true := by
  decide

/-- C7: the OS-error and network-error translators are distinct mappings
over distinct native numbering spaces: raw value 5 is access-denied in the
OS space but unassigned in the WSA space, so the two translators yield
different canonical codes on the same input. -/
theorem C7_distinct_error_spaces :
    (∃ n : Nat, mos_windows_error_to_err n ≠ mos_windows_wsa_error_to_err (n : Int)) ∧
    mos_windows_error_to_err 5 = MOS_ERR_PERM ∧
    mos_windows_wsa_error_to_err 5 = MOS_ERR_UNKNOWN ∧
    mos_windows_error_to_err 5 ≠ mos_windows_wsa_error_to_err 5 :=
  ⟨⟨5, by decide⟩, by decide, by decide, by decide⟩

/-- C8: every context-taking translation records the original native code
in the OperationContext and discards none of the codes already recorded;
the registry accessor forwards access errors through the translator, so
the native code is retrievable from the context it returns. -/
theorem C8_native_code_retained (iop : mosiop) :
    (∀ e : Nat, NativeCode.os e ∈ (mos_windows_error iop e).1.recorded ∧
      ∀ c ∈ iop.recorded, c ∈ (mos_windows_error iop e).1.recorded) ∧
    (∀ e : Int, NativeCode.wsa e ∈ (mos_windows_wsa_error iop e).1.recorded ∧
      ∀ c ∈ iop.recorded, c ∈ (mos_windows_wsa_error iop e).1.recorded) ∧
    (∀ (reg : Registry) (key value : String) (d e : Nat),
      reg key value = RegResult.accessError e →
      NativeCode.os e ∈ (mos_registry_getu32 iop reg key value d).iop.recorded ∧
      ∀ c ∈ iop.recorded, c ∈ (mos_registry_getu32 iop reg key value d).iop.recorded) := by
  refine ⟨?_, ?_, ?_⟩
  · intro e
    exact ⟨List.mem_cons_self _ _, fun c hc => List.mem_cons_of_mem _ hc⟩
  · intro e
    exact ⟨List.mem_cons_self _ _, fun c hc => List.mem_cons_of_mem _ hc⟩
  · intro reg key value d e he
    simp [mos_registry_getu32, he, mos_windows_error]
    exact fun c hc => Or.inr hc

/-- Witness for C8: translating native OS error 5 through a context that
already recorded WSA error 10060 keeps both codes retrievable, and a
registry access error records its native code. -/
theorem C8_native_code_retained_witness :
    (NativeCode.os 5 ∈ (mos_windows_error ⟨[NativeCode.wsa 10060]⟩ 5).1.recorded ∧
      NativeCode.wsa 10060 ∈ (mos_windows_error ⟨[NativeCode.wsa 10060]⟩ 5).1.recorded) ∧
    ((fun _ _ => RegResult.accessError 5 : Registry) "k" "v" = RegResult.accessError 5 ∧
      NativeCode.os 5 ∈ (mos_registry_getu32 ⟨[]⟩ (fun _ _ => RegResult.accessError 5)
        "k" "v" 0).iop.recorded) :=
  ⟨⟨((C8_native_code_retained ⟨[NativeCode.wsa 10060]⟩).1 5).1,
    ((C8_native_code_retained ⟨[NativeCode.wsa 10060]⟩).1 5).2
      (NativeCode.wsa 10060) (List.mem_cons_self _ _)⟩,
   ⟨rfl, ((C8_native_code_retained ⟨[]⟩).2.2 (fun _ _ => RegResult.accessError 5)
      "k" "v" 0 5 rfl).1⟩⟩

/-- C9 counterexample: `mos_windows_strerror` is declared to return
`const char *` — a pointer, not an integer status — so the claim that
every exported function of the subsystem returns an integer status fails
at `mos_windows_strerror`. -/
theorem C9_counterexample_strerror_returns_pointer :
    ("mos_windows_strerror", RetType.constCharPtr) ∈ exportedFunctions ∧
    exportedFunctions.lookup "mos_windows_strerror" = some RetType.constCharPtr ∧
    RetType.constCharPtr ≠ RetType.intStatus := by
  decide

/-- C9 amended: every exported function of the error-translation and
registry subsystem except `mos_windows_strerror` returns an integer
status and delivers data through caller-supplied output parameters;
`mos_windows_strerror` instead returns a `const char *` pointer to the
rendered message. -/
theorem C9_amended_return_protocol :
    (exportedFunctions.all fun p =>
      decide (p.2 = RetType.intStatus) || p.1 == "mos_windows_strerror") = true ∧
    exportedFunctions.lookup "mos_windows_strerror" = some RetType.constCharPtr := by
  decide

/-- C10: the SunOS compatibility definitions preserve BSD semantics under
the standard-library argument order: `bcopy src dst len` is exactly
`memcpy dst src len` (source-first swapped to destination-first) and
`bzero addr len` is exactly `memset addr 0 len`; consequently bcopy copies
each of the `len` source bytes to the destination leaving other addresses
unchanged, and bzero zeroes exactly the `len` addressed bytes. -/
theorem C10_bcopy_bzero_bsd (src dst len addr : Nat) (m : Mem) :
    bcopy src dst len m = memcpy dst src len m ∧
    bzero addr len m = memset addr 0 len m ∧
    (∀ i, i < len → bcopy src dst len m (dst + i) = m (src + i)) ∧
    (∀ a, a < dst ∨ dst + len ≤ a → bcopy src dst len m a = m a) ∧
    (∀ i, i < len → bzero addr len m (addr + i) = 0) ∧
    (∀ a, a < addr ∨ addr + len ≤ a → bzero addr len m a = m a) := by
  refine ⟨rfl, rfl, ?_, ?_, ?_, ?_⟩
  · intro i hi
    simp only [bcopy, memcpy]
    rw [if_pos (by omega)]
    congr 1
    omega
  · intro a ha
    simp only [bcopy, memcpy]
    rw [if_neg (by omega)]
  · intro i hi
    simp only [bzero, memset]
    rw [if_pos (by omega)]
  · intro a ha
    simp only [bzero, memset]
    rw [if_neg (by omega)]

/-- Witness for C10: copying 3 bytes from address 10 to address 20 over
the identity-valued memory moves byte 11 to address 21, and zeroing 3
bytes at 40 makes address 41 zero. -/
theorem C10_bcopy_bzero_bsd_witness :
    (1 < 3 ∧ bcopy 10 20 3 (fun a => a) (20 + 1) = (fun a => a : Mem) (10 + 1)) ∧
    (1 < 3 ∧ bzero 40 3 (fun a => a) (40 + 1) = 0) :=
  ⟨⟨by decide, (C10_bcopy_bzero_bsd 10 20 3 40 (fun a => a)).2.2.1 1 (by decide)⟩,
   ⟨by decide, (C10_bcopy_bzero_bsd 10 20 3 40 (fun a => a)).2.2.2.2.1 1 (by decide)⟩⟩

end RoboSanta
